import Mathlib

/-!
Verification of the entry-point dispatch / call-graph execution core of the
blockifier repository, against its natural-language specification.

The repository snapshot contains the test file
`blockifier/src/execution/entry_point_test.rs`, the `BlockContext` declaration
in `crates/blockifier/src/block_context.rs`, and the crate root; the engine
itself (`entry_point.rs`, `cached_state.rs`, the syscall dispatcher and the
contract-class loader) is not part of the snapshot.  Those components are
therefore modelled from the specification (each such definition carries a
doc comment starting `Modelled from the spec:`), and the test file's concrete
scenarios are used to pin the model down.

Field elements are modelled as natural numbers: the spec treats them as
opaque identifiers compared only for equality, and no claim depends on the
field modulus.
-/

/-- Field element, opaque beyond equality for this core (spec §3). -/
abbrev StarkFelt := Nat

/-- Class hash: identifier of a compiled program (spec §3). -/
abbrev ClassHash := StarkFelt

/-- Contract address: identifier of a deployed contract instance and its
storage namespace (spec §3). -/
abbrev ContractAddress := StarkFelt

/-- Entry point selector, unique within its kind (spec §3). -/
abbrev EntryPointSelector := StarkFelt

/-- Entry point kind: closed enumeration partitioning a class's entry-point
table (spec §3). -/
inductive EntryPointType where
  | external
  | l1Handler
  | constructor
deriving DecidableEq, Repr

/-- One row of a class's entry-point table: selector mapped to a program
location (offset) (spec §3, Contract Class). -/
structure EntryPointEntry where
  selector : EntryPointSelector
  offset : Nat
deriving DecidableEq, Repr

/-- Operand of a program instruction: a literal field element or a reference
into the interpreter's environment (calldata followed by syscall results). -/
inductive Arg where
  | lit (v : StarkFelt)
  | var (i : Nat)
deriving DecidableEq, Repr

/-- Evaluate an operand against the interpreter environment.  The environment
starts as the calldata; each syscall's results are appended to it. -/
def Arg.eval (env : List StarkFelt) : Arg → StarkFelt
  | .lit v => v
  | .var i => env.getD i 0

/-- Modelled from the spec: the executable body of a contract class, as seen
through the interpreter boundary (spec §2, §4.2 step 3-4).  The interpreter
itself is an external collaborator; for this core only the syscalls a program
issues and its return data are observable, so a program location is modelled
as the ordered list of syscalls it issues, ending in a return. -/
inductive Instr where
  | sread (key : Arg)
  | swrite (key : Arg) (val : Arg)
  | callContract (address : Arg) (selector : Arg) (args : List Arg)
  | libraryCall (class_hash : Arg) (selector : Arg) (args : List Arg)
  | ret (vals : List Arg)
deriving DecidableEq, Repr

/-- Modelled from the spec: an immutable, shared, loaded representation of a
compiled program — its entry-point table partitioned by kind plus the
executable body (spec §3, Contract Class; `contract_class.rs` is missing from
the snapshot). -/
structure ContractClass where
  entry_points_by_type : EntryPointType → List EntryPointEntry
  program : Nat → List Instr

/-- Modelled from the spec: one invocation request (spec §3, Call Entry
Point; `entry_point.rs` is missing from the snapshot).  Field names follow
the test file's `CallEntryPoint` literal. -/
structure CallEntryPoint where
  class_hash : ClassHash
  entry_point_type : EntryPointType
  entry_point_selector : EntryPointSelector
  calldata : List StarkFelt
  storage_address : ContractAddress
deriving DecidableEq, Repr

/-- Return data of one invocation (spec §3, Call Info; mirrors the test
file's `CallExecution`). -/
structure CallExecution where
  retdata : List StarkFelt
deriving DecidableEq, Repr

/-- Result record of one invocation: the originating entry point, its return
data, and the ordered nested invocations (spec §3, Call Info). -/
inductive CallInfo where
  | mk (call : CallEntryPoint) (execution : CallExecution)
       (inner_calls : List CallInfo)

/-- Originating Call Entry Point of a Call Info. -/
def CallInfo.call : CallInfo → CallEntryPoint
  | .mk c _ _ => c

/-- Execution result (retdata) of a Call Info. -/
def CallInfo.execution : CallInfo → CallExecution
  | .mk _ e _ => e

/-- Ordered nested invocations of a Call Info. -/
def CallInfo.inner_calls : CallInfo → List CallInfo
  | .mk _ _ i => i

/-- Error kinds of this core (spec §7). -/
inductive ExecError where
  | uninitializedClassHash (class_hash : ClassHash)
  | uninitializedContractAddress (address : ContractAddress)
  | entryPointNotFound (selector : EntryPointSelector)
  | resourceExhausted
deriving DecidableEq, Repr

/-- Modelled from the spec: the dictionary-backed State Reader used by the
tests (`cached_state.rs` with `DictStateReader` is missing from the
snapshot).  Each map is an association list; `get_storage_at` defaults to
zero for absent keys, class and deployment lookups error when absent
(spec §6). -/
structure DictStateReader where
  storage_view : List ((ContractAddress × StarkFelt) × StarkFelt) := []
  address_to_class_hash : List (ContractAddress × ClassHash) := []
  class_hash_to_class : List (ClassHash × ContractClass) := []

/-- Reader storage lookup: default 0 if unset (spec §6). -/
def DictStateReader.get_storage_at (r : DictStateReader)
    (address : ContractAddress) (key : StarkFelt) : StarkFelt :=
  (r.storage_view.lookup (address, key)).getD 0

/-- Modelled from the spec: the write-buffering overlay over a State Reader
(spec §3, §4.1; `cached_state.rs` is missing from the snapshot).  Pending
writes and the read-through cache are association lists keyed by the full
(contract address, storage key) tuple, newest entry first.  Class and
deployment lookups are read-only in this core (nothing in the fragment
declares or deploys), so they go straight to the reader. -/
structure CachedState where
  reader : DictStateReader
  storage_writes : List ((ContractAddress × StarkFelt) × StarkFelt)
  storage_read_cache : List ((ContractAddress × StarkFelt) × StarkFelt)

/-- Fresh Cached State over a reader: empty overlay, empty read cache. -/
def CachedState.new (reader : DictStateReader) : CachedState :=
  ⟨reader, [], []⟩

/-- Modelled from the spec: overlay read — first pending writes, then the
read cache, then the reader, populating the read cache on a miss
(spec §3, Cached State invariant).  Never fails: absent storage cells
resolve to zero via the reader's default (spec §4.1). -/
def CachedState.get_storage_at (s : CachedState) (address : ContractAddress)
    (key : StarkFelt) : StarkFelt × CachedState :=
  match s.storage_writes.lookup (address, key) with
  | some v => (v, s)
  | none =>
    match s.storage_read_cache.lookup (address, key) with
    | some v => (v, s)
    | none =>
      let v := s.reader.get_storage_at address key
      (v, { s with storage_read_cache := ((address, key), v) :: s.storage_read_cache })

/-- Modelled from the spec: overlay write — touches only the pending-writes
mapping, never the reader; always succeeds (spec §4.1). -/
def CachedState.set_storage_at (s : CachedState) (address : ContractAddress)
    (key : StarkFelt) (value : StarkFelt) : CachedState :=
  { s with storage_writes := ((address, key), value) :: s.storage_writes }

/-- Modelled from the spec: class lookup by hash; absent class declarations
are a genuine error (spec §4.1, §6). -/
def CachedState.get_compiled_class (s : CachedState) (class_hash : ClassHash) :
    Except ExecError ContractClass :=
  match s.reader.class_hash_to_class.lookup class_hash with
  | some c => .ok c
  | none => .error (.uninitializedClassHash class_hash)

/-- Modelled from the spec: deployed-class lookup by address; absent
deployments are a genuine error (spec §4.1, §6). -/
def CachedState.get_class_hash_at (s : CachedState) (address : ContractAddress) :
    Except ExecError ClassHash :=
  match s.reader.address_to_class_hash.lookup address with
  | some h => .ok h
  | none => .error (.uninitializedContractAddress address)

/-- Modelled from the spec: selector resolution within the requested kind's
table (spec §4.2 step 2): first entry whose selector matches, yielding its
program location. -/
def find_entry_point (cls : ContractClass) (ty : EntryPointType)
    (selector : EntryPointSelector) : Option Nat :=
  ((cls.entry_points_by_type ty).find? (fun e => e.selector == selector)).map
    (fun e => e.offset)

/-- Outcome of one engine invocation: the result together with the Cached
State as left by the call — the Rust engine takes the state by mutable
reference, so partial writes survive an error (spec §4.3, §7). -/
abbrev ExecOutcome := Except ExecError CallInfo × CachedState

/-- Modelled from the spec: the syscall loop of the interpreter boundary
(spec §4.2 steps 3-4, §4.3).  `exec` is the engine re-entered recursively by
invocation-shaped syscalls; `addr` is the storage address the syscall handle
is bound to.  Storage syscalls go straight to the Cached State; a contract
call resolves the target address to its deployed class and runs it as itself
(storage_address = target); a library call runs the given class hash against
the caller's own storage address.  Nested failures propagate verbatim;
results are appended to the environment and nested Call Infos are collected
in issue order. -/
def runInstrs (exec : CallEntryPoint → CachedState → ExecOutcome)
    (addr : ContractAddress) :
    List Instr → List StarkFelt → List CallInfo → CachedState →
    Except ExecError (List StarkFelt × List CallInfo) × CachedState
  | [], _, acc, s => (.ok ([], acc), s)
  | .ret vals :: _, env, acc, s =>
      (.ok (vals.map (Arg.eval env), acc), s)
  | .sread key :: rest, env, acc, s =>
      let r := s.get_storage_at addr (key.eval env)
      runInstrs exec addr rest (env ++ [r.1]) acc r.2
  | .swrite key val :: rest, env, acc, s =>
      runInstrs exec addr rest env acc
        (s.set_storage_at addr (key.eval env) (val.eval env))
  | .callContract address selector args :: rest, env, acc, s =>
      match s.get_class_hash_at (address.eval env) with
      | .error e => (.error e, s)
      | .ok ch =>
        let nested : CallEntryPoint :=
          { class_hash := ch
            entry_point_type := .external
            entry_point_selector := selector.eval env
            calldata := args.map (Arg.eval env)
            storage_address := address.eval env }
        let r := exec nested s
        match r.1 with
        | .error e => (.error e, r.2)
        | .ok info =>
          runInstrs exec addr rest (env ++ info.execution.retdata)
            (acc ++ [info]) r.2
  | .libraryCall class_hash selector args :: rest, env, acc, s =>
      let nested : CallEntryPoint :=
        { class_hash := class_hash.eval env
          entry_point_type := .external
          entry_point_selector := selector.eval env
          calldata := args.map (Arg.eval env)
          storage_address := addr }
      let r := exec nested s
      match r.1 with
      | .error e => (.error e, r.2)
      | .ok info =>
        runInstrs exec addr rest (env ++ info.execution.retdata)
          (acc ++ [info]) r.2

/-- Modelled from the spec: invoke the interpreter boundary at a resolved
program location (spec §4.2 steps 3-5): run the program with the calldata as
initial environment and the syscall handle bound to the entry point's
storage address, then assemble the Call Info from the retdata and the
ordered nested Call Infos. -/
def run_location (exec : CallEntryPoint → CachedState → ExecOutcome)
    (cls : ContractClass) (loc : Nat) (ep : CallEntryPoint)
    (s : CachedState) : ExecOutcome :=
  let r := runInstrs exec ep.storage_address (cls.program loc) ep.calldata [] s
  match r.1 with
  | .ok out => (.ok (.mk ep ⟨out.1⟩ out.2), r.2)
  | .error e => (.error e, r.2)

/-- Modelled from the spec: one dispatch step of the Execution Engine
(spec §4.2): resolve the class, resolve the selector within the requested
kind's table, then run the found location.  `exec` handles the recursive
re-entry from syscalls. -/
def executeStep (exec : CallEntryPoint → CachedState → ExecOutcome)
    (ep : CallEntryPoint) (s : CachedState) : ExecOutcome :=
  match s.get_compiled_class ep.class_hash with
  | .error e => (.error e, s)
  | .ok cls =>
    match find_entry_point cls ep.entry_point_type ep.entry_point_selector with
    | none => (.error (.entryPointNotFound ep.entry_point_selector), s)
    | some loc => run_location exec cls loc ep s

/-- Modelled from the spec: the Execution Engine's `execute` operation
(spec §4.2), with the step budget as explicit fuel: exhausting the budget
aborts the call chain with a resource-exhaustion error (spec §5).  The state
is threaded in and out unconditionally, matching the Rust signature's
`&mut CachedState`. -/
def execute : Nat → CallEntryPoint → CachedState → ExecOutcome
  | 0, _, s => (.error .resourceExhausted, s)
  | fuel + 1, ep, s => executeStep (execute fuel) ep s

/-- Selector of the test contract's WITHOUT_ARG entry point
(`entry_point_test.rs`). -/
def WITHOUT_ARG_SELECTOR : EntryPointSelector :=
  0x382a967a31be13f23e23a5345f7a89b0362cc157d6fbe7564e6396a83cf4b4f

/-- Selector of the test contract's RETURN_RESULT entry point
(`entry_point_test.rs`). -/
def RETURN_RESULT_SELECTOR : EntryPointSelector :=
  0x39a1491f76903a16feed0a6433bec78de4c73194944e1118e226820ad479701

/-- Selector of the test contract's TEST_LIBRARY_CALL entry point
(`entry_point_test.rs`). -/
def TEST_LIBRARY_CALL_SELECTOR : EntryPointSelector :=
  0x3604cea1cdb094a73a31144f14a3e5861613c008e1e879939ebc4827d10cd50

/-- Class hash under which the test contract is declared
(`entry_point_test.rs`, TEST_CLASS_HASH = 0x1). -/
def TEST_CLASS_HASH : ClassHash := 0x1

/-- Address the test entry points run against
(`entry_point_test.rs`, TEST_CONTRACT_ADDRESS = 0x100). -/
def TEST_CONTRACT_ADDRESS : ContractAddress := 0x100

/-- Modelled from the spec: the compiled test feature contract
(`simple_contract_compiled.json`, not in the snapshot), restricted to the
entry points the spec's concrete scenario describes (spec §8): WITHOUT_ARG
returns no data; RETURN_RESULT returns its single argument; TEST_LIBRARY_CALL
issues a library call using the class-hash/selector/length/arg calldata
convention and returns the nested retdata. -/
def testContractClass : ContractClass where
  entry_points_by_type := fun ty =>
    match ty with
    | .external =>
        [⟨WITHOUT_ARG_SELECTOR, 0⟩, ⟨RETURN_RESULT_SELECTOR, 1⟩,
         ⟨TEST_LIBRARY_CALL_SELECTOR, 2⟩]
    | _ => []
  program := fun loc =>
    match loc with
    | 0 => [.ret []]
    | 1 => [.ret [.var 0]]
    | 2 => [.libraryCall (.var 0) (.var 1) [.var 3], .ret [.var 4]]
    | _ => []

/-- Fresh Cached State whose reader declares the test contract class under
TEST_CLASS_HASH (mirrors `create_test_state` in `entry_point_test.rs`). -/
def create_test_state : CachedState :=
  CachedState.new { class_hash_to_class := [(TEST_CLASS_HASH, testContractClass)] }

/-- External entry point request on the test class with empty calldata and
selector 0 (mirrors `trivial_external_entrypoint` in `entry_point_test.rs`). -/
def trivial_external_entrypoint : CallEntryPoint where
  class_hash := TEST_CLASS_HASH
  entry_point_type := .external
  entry_point_selector := 0
  calldata := []
  storage_address := TEST_CONTRACT_ADDRESS

/-- C8: invoking the test class's External WITHOUT_ARG entry point with empty
calldata against a fresh Cached State returns the full Call Info
(call = the entry point, retdata = [], inner_calls = []), and invoking its
RETURN_RESULT entry point with calldata [23] returns retdata [23]. -/
theorem test_class_concrete_scenario :
    (execute 10
        { trivial_external_entrypoint with
            entry_point_selector := WITHOUT_ARG_SELECTOR }
        create_test_state).1
      = .ok (.mk
          { trivial_external_entrypoint with
              entry_point_selector := WITHOUT_ARG_SELECTOR } ⟨[]⟩ [])
    ∧ (execute 10
        { trivial_external_entrypoint with
            entry_point_selector := RETURN_RESULT_SELECTOR, calldata := [23] }
        create_test_state).1
      = .ok (.mk
          { trivial_external_entrypoint with
              entry_point_selector := RETURN_RESULT_SELECTOR,
              calldata := [23] } ⟨[23]⟩ []) :=
  ⟨rfl, rfl⟩

/-- C2: read-your-writes — writing then reading the same (address, key) pair
on the same Cached State returns the written value immediately, whatever the
underlying State Reader holds, and the read changes nothing (the hit comes
from the pending-writes layer, so not even the read cache grows). -/
theorem write_then_read_same_key (s : CachedState) (address : ContractAddress)
    (key value : StarkFelt) :
    (s.set_storage_at address key value).get_storage_at address key
      = (value, s.set_storage_at address key value) := by
  simp [CachedState.get_storage_at, CachedState.set_storage_at, List.lookup]

/-- C5: a storage key never written through the Cached State and absent from
the backing reader reads as zero — and the read is total by type, so it never
errors — while absent class-by-hash and class-hash-by-address lookups are
genuine errors. -/
theorem default_zero_storage_and_class_errors (s : CachedState)
    (a k ch addr : StarkFelt)
    (hw : s.storage_writes.lookup (a, k) = none)
    (hc : s.storage_read_cache.lookup (a, k) = none)
    (hr : s.reader.storage_view.lookup (a, k) = none)
    (hcl : s.reader.class_hash_to_class.lookup ch = none)
    (hah : s.reader.address_to_class_hash.lookup addr = none) :
    (s.get_storage_at a k).1 = 0
    ∧ s.get_compiled_class ch = .error (.uninitializedClassHash ch)
    ∧ s.get_class_hash_at addr = .error (.uninitializedContractAddress addr) := by
  refine ⟨?_, ?_, ?_⟩
  · simp [CachedState.get_storage_at, hw, hc, DictStateReader.get_storage_at, hr]
  · simp [CachedState.get_compiled_class, hcl]
  · simp [CachedState.get_class_hash_at, hah]

/-- Witness for the default-zero / absent-lookup theorem, at a fresh Cached
State over an empty reader. -/
theorem default_zero_storage_and_class_errors_witness :
    (CachedState.new {}).storage_writes.lookup (3, 4) = none
    ∧ (CachedState.new {}).storage_read_cache.lookup (3, 4) = none
    ∧ (CachedState.new {}).reader.storage_view.lookup (3, 4) = none
    ∧ (CachedState.new {}).reader.class_hash_to_class.lookup 9 = none
    ∧ (CachedState.new {}).reader.address_to_class_hash.lookup 8 = none
    ∧ (((CachedState.new {}).get_storage_at 3 4).1 = 0
       ∧ (CachedState.new {}).get_compiled_class 9
           = .error (.uninitializedClassHash 9)
       ∧ (CachedState.new {}).get_class_hash_at 8
           = .error (.uninitializedContractAddress 8)) :=
  ⟨rfl, rfl, rfl, rfl, rfl,
   default_zero_storage_and_class_errors (CachedState.new {}) 3 4 9 8
     rfl rfl rfl rfl rfl⟩

/-- Storage reads leave the underlying State Reader untouched: only the read
cache may grow (spec §4.1). -/
theorem get_storage_at_preserves_reader (s : CachedState)
    (a k : StarkFelt) : ((s.get_storage_at a k).2).reader = s.reader := by
  unfold CachedState.get_storage_at
  split
  · rfl
  · split
    · rfl
    · rfl

/-- The syscall loop never replaces the underlying State Reader, provided the
recursive engine it re-enters does not either. -/
theorem runInstrs_preserves_reader
    (exec : CallEntryPoint → CachedState → ExecOutcome)
    (hexec : ∀ ep s, ((exec ep s).2).reader = s.reader)
    (addr : ContractAddress) :
    ∀ (instrs : List Instr) (env : List StarkFelt) (acc : List CallInfo)
      (s : CachedState),
      ((runInstrs exec addr instrs env acc s).2).reader = s.reader := by
  intro instrs
  induction instrs with
  | nil => intro env acc s; rfl
  | cons i rest ih =>
    intro env acc s
    cases i with
    | ret vals => rfl
    | sread key =>
      simp only [runInstrs]
      rw [ih]
      exact get_storage_at_preserves_reader s addr _
    | swrite key val =>
      simp only [runInstrs]
      rw [ih]
      rfl
    | callContract address selector args =>
      simp only [runInstrs]
      split
      · rfl
      · split
        · exact hexec _ s
        · rw [ih]; exact hexec _ s
    | libraryCall ch sel args =>
      simp only [runInstrs]
      split
      · exact hexec _ s
      · rw [ih]; exact hexec _ s

/-- The engine threads the Cached State but never swaps its underlying
State Reader, at any fuel, for any entry point (spec §4.1: no part of this
core may mutate the underlying State Reader). -/
theorem execute_preserves_reader :
    ∀ (fuel : Nat) (ep : CallEntryPoint) (s : CachedState),
      ((execute fuel ep s).2).reader = s.reader := by
  intro fuel
  induction fuel with
  | zero => intro ep s; rfl
  | succ n ih =>
    intro ep s
    show ((executeStep (execute n) ep s).2).reader = s.reader
    unfold executeStep
    split
    · rfl
    · split
      · rfl
      · unfold run_location
        dsimp only
        split
        · exact runInstrs_preserves_reader (execute n) ih ep.storage_address _ _ _ _
        · exact runInstrs_preserves_reader (execute n) ih ep.storage_address _ _ _ _

/-- Modelled from the spec: a two-entry-point class used to observe state
threading — External selector 11 (location 0) writes value 3 to storage
key 7; External selector 12 (location 1) reads key 7 and returns it. -/
def writerClass : ContractClass where
  entry_points_by_type := fun ty =>
    match ty with
    | .external => [⟨11, 0⟩, ⟨12, 1⟩]
    | _ => []
  program := fun loc =>
    match loc with
    | 0 => [.swrite (.lit 7) (.lit 3), .ret []]
    | _ => [.sread (.lit 7), .ret [.var 0]]

/-- Fresh Cached State declaring the writer class under hash 1. -/
def writerState : CachedState :=
  CachedState.new { class_hash_to_class := [(1, writerClass)] }

/-- Request for the writing entry point of the writer class. -/
def writerEp : CallEntryPoint := ⟨1, .external, 11, [], 256⟩

/-- Request for the reading entry point of the writer class. -/
def writerReadEp : CallEntryPoint := ⟨1, .external, 12, [], 256⟩

/-- C9: `execute` consumes the Cached State by mutable reference and hands it
back: the returned state is the same instance (its underlying State Reader is
never replaced, at any fuel), and overlay mutations made during the call are
visible both to subsequent reads and to subsequent executions on that
state. -/
theorem execute_threads_state :
    (∀ (fuel : Nat) (ep : CallEntryPoint) (s : CachedState),
        ((execute fuel ep s).2).reader = s.reader)
    ∧ (((execute 10 writerEp writerState).2).get_storage_at 256 7).1 = 3
    ∧ (execute 10 writerReadEp ((execute 10 writerEp writerState).2)).1
        = .ok (.mk writerReadEp ⟨[3]⟩ []) :=
  ⟨execute_preserves_reader, rfl, rfl⟩

/-- Modelled from the spec: a proxy class, generalized over the scenario's
identifiers — its single External entry point (selector s1) issues a library
call to class hash C2h at selector s2 with no arguments and returns the
nested retdata (spec §4.3, library call: delegate/proxy pattern). -/
def genProxyClass (C2h s1 s2 : StarkFelt) : ContractClass where
  entry_points_by_type := fun ty =>
    match ty with
    | .external => [⟨s1, 0⟩]
    | _ => []
  program := fun _ => [.libraryCall (.lit C2h) (.lit s2) [], .ret [.var 0]]

/-- Modelled from the spec: an implementation class, generalized over the
scenario's identifiers — its single External entry point (selector s2) reads
storage key k and returns the value read. -/
def genImplClass (s2 k : StarkFelt) : ContractClass where
  entry_points_by_type := fun ty =>
    match ty with
    | .external => [⟨s2, 0⟩]
    | _ => []
  program := fun _ => [.sread (.lit k), .ret [.var 0]]

/-- Reader for the library-call storage-inheritance scenario, generalized:
the proxy class is declared at hash C1h and the implementation class at hash
C2h; the implementation class is also deployed at address B; storage key k
holds va at the caller's address A and vb at address B. -/
def genLibCallReader (A B C1h C2h s1 s2 k va vb : StarkFelt) : DictStateReader where
  storage_view := [((A, k), va), ((B, k), vb)]
  address_to_class_hash := [(B, C2h)]
  class_hash_to_class := [(C1h, genProxyClass C2h s1 s2), (C2h, genImplClass s2 k)]

/-- C1: library-call storage inheritance, universally.  First conjunct: for
every library call issued from any frame — any engine re-entry `exec`, any
bound storage address, any class-hash/selector/argument operands, any
environment, accumulator and state — the nested invocation the syscall
issues carries `storage_address := addr`, inherited unchanged from the
issuing frame, and the supplied class hash, and on success its Call Info is
appended and execution continues (the engine never infers class from
address here).  Second conjunct: for all addresses A and B, class hashes
C1h ≠ C2h, selectors, key and stored values, a library call from a frame at
A with class C1h targeting C2h runs C2h's code yet reads A's cell (va), not
the cell at B where C2h is deployed (vb), and both the outer and nested Call
Infos record storage_address A.  Third conjunct: the test class's
TEST_LIBRARY_CALL targeting RETURN_RESULT with encoded calldata
[class hash, selector, length 1, arg 91] returns nested retdata [91] with
the outer frame's storage_address unchanged. -/
theorem library_call_storage_inheritance
    (A B C1h C2h s1 s2 k va vb : StarkFelt) (hch : C2h ≠ C1h) :
    (∀ (exec : CallEntryPoint → CachedState → ExecOutcome)
       (addr : ContractAddress) (ch sel : Arg) (args : List Arg)
       (rest : List Instr) (env : List StarkFelt) (acc : List CallInfo)
       (s : CachedState),
       runInstrs exec addr (.libraryCall ch sel args :: rest) env acc s
         = (let nested : CallEntryPoint :=
              { class_hash := ch.eval env
                entry_point_type := .external
                entry_point_selector := sel.eval env
                calldata := args.map (Arg.eval env)
                storage_address := addr }
            let r := exec nested s
            match r.1 with
            | .error e => (.error e, r.2)
            | .ok info =>
              runInstrs exec addr rest (env ++ info.execution.retdata)
                (acc ++ [info]) r.2))
    ∧ (execute 10 ⟨C1h, .external, s1, [], A⟩
         (CachedState.new (genLibCallReader A B C1h C2h s1 s2 k va vb))).1
        = .ok (.mk ⟨C1h, .external, s1, [], A⟩ ⟨[va]⟩
            [.mk ⟨C2h, .external, s2, [], A⟩ ⟨[va]⟩ []])
    ∧ (execute 10
        { trivial_external_entrypoint with
            entry_point_selector := TEST_LIBRARY_CALL_SELECTOR,
            calldata := [TEST_CLASS_HASH, RETURN_RESULT_SELECTOR, 1, 91] }
        create_test_state).1
      = .ok (.mk
          { trivial_external_entrypoint with
              entry_point_selector := TEST_LIBRARY_CALL_SELECTOR,
              calldata := [TEST_CLASS_HASH, RETURN_RESULT_SELECTOR, 1, 91] }
          ⟨[91]⟩
          [.mk ⟨TEST_CLASS_HASH, .external, RETURN_RESULT_SELECTOR, [91],
                TEST_CONTRACT_ADDRESS⟩ ⟨[91]⟩ []]) := by
  refine ⟨fun exec addr ch sel args rest env acc s => rfl, ?_, rfl⟩
  have hb : (C2h == C1h) = false := beq_eq_false_iff_ne.mpr hch
  have hP : (CachedState.new
        (genLibCallReader A B C1h C2h s1 s2 k va vb)).get_compiled_class C1h
      = .ok (genProxyClass C2h s1 s2) := by
    simp [CachedState.get_compiled_class, CachedState.new, genLibCallReader,
      List.lookup]
  have hI : (CachedState.new
        (genLibCallReader A B C1h C2h s1 s2 k va vb)).get_compiled_class C2h
      = .ok (genImplClass s2 k) := by
    simp [CachedState.get_compiled_class, CachedState.new, genLibCallReader,
      List.lookup, hb]
  have hfP : find_entry_point (genProxyClass C2h s1 s2) .external s1
      = some 0 := by
    simp [find_entry_point, genProxyClass, List.find?]
  have hfI : find_entry_point (genImplClass s2 k) .external s2 = some 0 := by
    simp [find_entry_point, genImplClass, List.find?]
  have hread : (CachedState.new
        (genLibCallReader A B C1h C2h s1 s2 k va vb)).get_storage_at A k
      = (va, ⟨genLibCallReader A B C1h C2h s1 s2 k va vb, [], [((A, k), va)]⟩) := by
    simp [CachedState.get_storage_at, CachedState.new,
      DictStateReader.get_storage_at, genLibCallReader, List.lookup]
  have hprogI : (genImplClass s2 k).program 0
      = [.sread (.lit k), .ret [.var 0]] := rfl
  have hprogP : (genProxyClass C2h s1 s2).program 0
      = [.libraryCall (.lit C2h) (.lit s2) [], .ret [.var 0]] := rfl
  have hnested : execute 9 ⟨C2h, .external, s2, [], A⟩
        (CachedState.new (genLibCallReader A B C1h C2h s1 s2 k va vb))
      = (.ok (.mk ⟨C2h, .external, s2, [], A⟩ ⟨[va]⟩ []),
         ⟨genLibCallReader A B C1h C2h s1 s2 k va vb, [], [((A, k), va)]⟩) := by
    show executeStep (execute 8) _ _ = _
    simp [executeStep, hI, hfI, run_location, hprogI, runInstrs,
      Arg.eval, hread, CallInfo.execution]
  show (executeStep (execute 9) _ _).1 = _
  simp [executeStep, hP, hfP, run_location, hprogP, runInstrs,
    Arg.eval, hnested, CallInfo.execution]

/-- Witness for the library-call theorem at concrete identifiers: caller at
address 256 running class 1, target class 2 deployed at address 512; the
nested read returns the caller-cell value 77, not the value 88 stored at the
target's own deployed address. -/
theorem library_call_storage_inheritance_witness :
    (2 : StarkFelt) ≠ 1
    ∧ (execute 10 ⟨1, .external, 60, [], 256⟩
        (CachedState.new (genLibCallReader 256 512 1 2 60 61 5 77 88))).1
      = .ok (.mk ⟨1, .external, 60, [], 256⟩ ⟨[77]⟩
          [.mk ⟨2, .external, 61, [], 256⟩ ⟨[77]⟩ []]) :=
  ⟨by decide,
   (library_call_storage_inheritance 256 512 1 2 60 61 5 77 88 (by decide)).2.1⟩

/-- Modelled from the spec: a class whose parent entry point (selector 50,
location 0) issues three library calls in order — a writer (selector 51,
writes its argument to key 5), a reader (selector 52, reads key 5 and returns
it), and a no-op (selector 53) — all sharing one Cached State (spec §5,
ordering guarantee). -/
def orderingClass : ContractClass where
  entry_points_by_type := fun ty =>
    match ty with
    | .external => [⟨50, 0⟩, ⟨51, 1⟩, ⟨52, 2⟩, ⟨53, 3⟩]
    | _ => []
  program := fun loc =>
    match loc with
    | 0 => [.libraryCall (.lit 1) (.lit 51) [.var 0],
            .libraryCall (.lit 1) (.lit 52) [],
            .libraryCall (.lit 1) (.lit 53) [],
            .ret []]
    | 1 => [.swrite (.lit 5) (.var 0), .ret []]
    | 2 => [.sread (.lit 5), .ret [.var 0]]
    | _ => [.ret []]

/-- Reader declaring the ordering class under hash 1. -/
def orderingReader : DictStateReader :=
  { class_hash_to_class := [(1, orderingClass)] }

/-- C4: call-tree ordering, universally.  First conjunct: for every program
issuing three invocation-shaped syscalls in order [n1, n2, n3] — any engine
re-entry, any operands, any calldata environment — whenever the engine
returns Info(n1), Info(n2), Info(n3), the frame's inner_calls is exactly
[Info(n1), Info(n2), Info(n3)] in issue order, and each nested call starts
from the state the previous one produced (s, then s1, then s2): all nested
calls share the one Cached State, so overlay writes during n1 are visible
while n2 runs.  Second conjunct: a contract-call syscall threads state and
appends its Info the same way, for any accumulator.  Third conjunct: a
concrete instance where the write performed during n1 (value v to key 5) is
returned by the read during n2. -/
theorem call_tree_ordering
    (exec : CallEntryPoint → CachedState → ExecOutcome)
    (addr : ContractAddress) (ch1 sel1 ch2 sel2 ch3 sel3 : Arg)
    (args1 args2 args3 rets : List Arg) (env : List StarkFelt)
    (s s1 s2 s3 : CachedState) (info1 info2 info3 : CallInfo) (v : StarkFelt)
    (h1 : exec { class_hash := ch1.eval env
                 entry_point_type := .external
                 entry_point_selector := sel1.eval env
                 calldata := args1.map (Arg.eval env)
                 storage_address := addr } s = (.ok info1, s1))
    (h2 : exec { class_hash := ch2.eval (env ++ info1.execution.retdata)
                 entry_point_type := .external
                 entry_point_selector := sel2.eval (env ++ info1.execution.retdata)
                 calldata := args2.map (Arg.eval (env ++ info1.execution.retdata))
                 storage_address := addr } s1 = (.ok info2, s2))
    (h3 : exec { class_hash :=
                   ch3.eval (env ++ info1.execution.retdata ++ info2.execution.retdata)
                 entry_point_type := .external
                 entry_point_selector :=
                   sel3.eval (env ++ info1.execution.retdata ++ info2.execution.retdata)
                 calldata :=
                   args3.map (Arg.eval (env ++ info1.execution.retdata ++ info2.execution.retdata))
                 storage_address := addr } s2 = (.ok info3, s3)) :
    runInstrs exec addr
        [.libraryCall ch1 sel1 args1, .libraryCall ch2 sel2 args2,
         .libraryCall ch3 sel3 args3, .ret rets] env [] s
      = (.ok (rets.map (Arg.eval (env ++ info1.execution.retdata
            ++ info2.execution.retdata ++ info3.execution.retdata)),
          [info1, info2, info3]), s3)
    ∧ (∀ (exec2 : CallEntryPoint → CachedState → ExecOutcome)
         (addr2 : ContractAddress) (a sel : Arg) (args : List Arg)
         (rest : List Instr) (env2 : List StarkFelt) (acc2 : List CallInfo)
         (t t2 : CachedState) (chv : ClassHash) (info : CallInfo),
         t.get_class_hash_at (a.eval env2) = .ok chv →
         exec2 { class_hash := chv
                 entry_point_type := .external
                 entry_point_selector := sel.eval env2
                 calldata := args.map (Arg.eval env2)
                 storage_address := a.eval env2 } t = (.ok info, t2) →
         runInstrs exec2 addr2 (.callContract a sel args :: rest) env2 acc2 t
           = runInstrs exec2 addr2 rest (env2 ++ info.execution.retdata)
               (acc2 ++ [info]) t2)
    ∧ (execute 10 ⟨1, .external, 50, [v], 256⟩ (CachedState.new orderingReader)).1
      = .ok (.mk ⟨1, .external, 50, [v], 256⟩ ⟨[]⟩
          [.mk ⟨1, .external, 51, [v], 256⟩ ⟨[]⟩ [],
           .mk ⟨1, .external, 52, [], 256⟩ ⟨[v]⟩ [],
           .mk ⟨1, .external, 53, [], 256⟩ ⟨[]⟩ []]) := by
  refine ⟨?_, ?_, rfl⟩
  · simp only [runInstrs, h1, h2, h3]
    simp
  · intro exec2 addr2 a sel args rest env2 acc2 t t2 chv info hchv hx
    simp [runInstrs, hchv, hx]

/-- Witness for the call-tree ordering theorem on the ordering class: the
three nested outcomes are computed concretely (the second returns [7], the
value the first wrote), and the syscall loop assembles them in issue
order. -/
theorem call_tree_ordering_witness :
    execute 9 ⟨1, .external, 51, [7], 256⟩ (CachedState.new orderingReader)
      = (.ok (.mk ⟨1, .external, 51, [7], 256⟩ ⟨[]⟩ []),
         ⟨orderingReader, [((256, 5), 7)], []⟩)
    ∧ execute 9 ⟨1, .external, 52, [], 256⟩
        ⟨orderingReader, [((256, 5), 7)], []⟩
      = (.ok (.mk ⟨1, .external, 52, [], 256⟩ ⟨[7]⟩ []),
         ⟨orderingReader, [((256, 5), 7)], []⟩)
    ∧ execute 9 ⟨1, .external, 53, [], 256⟩
        ⟨orderingReader, [((256, 5), 7)], []⟩
      = (.ok (.mk ⟨1, .external, 53, [], 256⟩ ⟨[]⟩ []),
         ⟨orderingReader, [((256, 5), 7)], []⟩)
    ∧ runInstrs (execute 9) 256
        [.libraryCall (.lit 1) (.lit 51) [.var 0],
         .libraryCall (.lit 1) (.lit 52) [],
         .libraryCall (.lit 1) (.lit 53) [], .ret []] [7] []
        (CachedState.new orderingReader)
      = (.ok ([], [.mk ⟨1, .external, 51, [7], 256⟩ ⟨[]⟩ [],
                   .mk ⟨1, .external, 52, [], 256⟩ ⟨[7]⟩ [],
                   .mk ⟨1, .external, 53, [], 256⟩ ⟨[]⟩ []]),
         ⟨orderingReader, [((256, 5), 7)], []⟩) :=
  ⟨rfl, rfl, rfl,
   (call_tree_ordering (execute 9) 256 (.lit 1) (.lit 51) (.lit 1) (.lit 52)
      (.lit 1) (.lit 53) [.var 0] [] [] [] [7]
      (CachedState.new orderingReader)
      ⟨orderingReader, [((256, 5), 7)], []⟩
      ⟨orderingReader, [((256, 5), 7)], []⟩
      ⟨orderingReader, [((256, 5), 7)], []⟩
      (.mk ⟨1, .external, 51, [7], 256⟩ ⟨[]⟩ [])
      (.mk ⟨1, .external, 52, [], 256⟩ ⟨[7]⟩ [])
      (.mk ⟨1, .external, 53, [], 256⟩ ⟨[]⟩ [])
      7 rfl rfl rfl).1⟩

/-- Modelled from the spec: outer class of the failure scenario — External
selector 70 writes 3 to key 7, then library-calls class hash 2 at
selector 71. -/
def errOuterClass : ContractClass where
  entry_points_by_type := fun ty =>
    match ty with
    | .external => [⟨70, 0⟩]
    | _ => []
  program := fun _ =>
    [.swrite (.lit 7) (.lit 3), .libraryCall (.lit 2) (.lit 71) [], .ret []]

/-- Modelled from the spec: inner class of the failure scenario — External
selector 71 writes 5 to key 8, then library-calls class hash 1 at
selector 12345, which class 1 does not export, so the innermost dispatch
fails. -/
def errInnerClass : ContractClass where
  entry_points_by_type := fun ty =>
    match ty with
    | .external => [⟨71, 0⟩]
    | _ => []
  program := fun _ =>
    [.swrite (.lit 8) (.lit 5), .libraryCall (.lit 1) (.lit 12345) [], .ret []]

/-- Reader declaring both failure-scenario classes. -/
def errReader : DictStateReader :=
  { class_hash_to_class := [(1, errOuterClass), (2, errInnerClass)] }

/-- Fresh Cached State over the failure-scenario reader. -/
def errState : CachedState := CachedState.new errReader

/-- Entry request of the failure scenario. -/
def errEp : CallEntryPoint := ⟨1, .external, 70, [], 256⟩

/-- C6: nested-call failure handling, universally.  For every error value e:
a library-call syscall whose nested execution fails returns that very error
to the issuing frame together with the nested call's post-state — nothing
wrapped, nothing rolled back, every overlay write the failed call already
made is still in the returned state; a contract-call syscall behaves the
same; and at the engine boundary a failing interpreter run surfaces as the
same error with the same state from `execute` itself.  Concretely: the
innermost EntryPointNotFound(12345) is the outer result, unwrapped, and the
final overlay holds both the outer frame's write (key 7 := 3) and the failed
nested frame's write (key 8 := 5), still readable. -/
theorem nested_failure_propagates_and_keeps_writes (e : ExecError) :
    (∀ (exec : CallEntryPoint → CachedState → ExecOutcome)
       (addr : ContractAddress) (ch sel : Arg) (args : List Arg)
       (rest : List Instr) (env : List StarkFelt) (acc : List CallInfo)
       (s s' : CachedState),
       exec { class_hash := ch.eval env
              entry_point_type := .external
              entry_point_selector := sel.eval env
              calldata := args.map (Arg.eval env)
              storage_address := addr } s = (.error e, s') →
       runInstrs exec addr (.libraryCall ch sel args :: rest) env acc s
         = (.error e, s'))
    ∧ (∀ (exec : CallEntryPoint → CachedState → ExecOutcome)
         (addr : ContractAddress) (a sel : Arg) (args : List Arg)
         (rest : List Instr) (env : List StarkFelt) (acc : List CallInfo)
         (s s' : CachedState) (chv : ClassHash),
       s.get_class_hash_at (a.eval env) = .ok chv →
       exec { class_hash := chv
              entry_point_type := .external
              entry_point_selector := sel.eval env
              calldata := args.map (Arg.eval env)
              storage_address := a.eval env } s = (.error e, s') →
       runInstrs exec addr (.callContract a sel args :: rest) env acc s
         = (.error e, s'))
    ∧ (∀ (fuel : Nat) (ep : CallEntryPoint) (s s' : CachedState)
         (cls : ContractClass) (loc : Nat),
       s.get_compiled_class ep.class_hash = .ok cls →
       find_entry_point cls ep.entry_point_type ep.entry_point_selector = some loc →
       runInstrs (execute fuel) ep.storage_address (cls.program loc)
           ep.calldata [] s = (.error e, s') →
       execute (fuel + 1) ep s = (.error e, s'))
    ∧ (execute 10 errEp errState
         = (.error (.entryPointNotFound 12345),
            ⟨errReader, [((256, 8), 5), ((256, 7), 3)], []⟩)
       ∧ ((⟨errReader, [((256, 8), 5), ((256, 7), 3)], []⟩ : CachedState).get_storage_at
             256 8).1 = 5) := by
  refine ⟨?_, ?_, ?_, rfl, rfl⟩
  · intro exec addr ch sel args rest env acc s sf hx
    simp [runInstrs, hx]
  · intro exec addr a sel args rest env acc s sf chv hchv hx
    simp [runInstrs, hchv, hx]
  · intro fuel ep s sf cls loc hcls hfind hrun
    show executeStep (execute fuel) ep s = _
    simp [executeStep, hcls, hfind, run_location, hrun]

/-- Witness for the nested-failure theorem: the failing nested dispatch
(selector 12345, absent from class 1's table) is computed concretely, and the
issuing frame's syscall loop returns exactly that error with the nested
post-state. -/
theorem nested_failure_propagates_and_keeps_writes_witness :
    execute 9 ⟨1, .external, 12345, [], 256⟩ errState
      = (.error (.entryPointNotFound 12345), errState)
    ∧ runInstrs (execute 9) 256
        [.libraryCall (.lit 1) (.lit 12345) [], .ret []] [] [] errState
      = (.error (.entryPointNotFound 12345), errState) :=
  ⟨rfl,
   (nested_failure_propagates_and_keeps_writes (.entryPointNotFound 12345)).1
     (execute 9) 256 (.lit 1) (.lit 12345) [] [.ret []] [] [] errState errState
     rfl⟩



/-- C3: dispatch resolution — with the class resolved, a selector absent from
the requested kind's table makes `execute` fail with EntryPointNotFound
carrying that selector (and an untouched state); a selector the table
contains at location L (unambiguously) makes `execute` run location L
through the interpreter boundary. -/
theorem entry_point_resolution (fuel : Nat) (ep : CallEntryPoint)
    (s : CachedState) (cls : ContractClass) (L : Nat)
    (hcls : s.get_compiled_class ep.class_hash = .ok cls) :
    ((∀ e ∈ cls.entry_points_by_type ep.entry_point_type,
        e.selector ≠ ep.entry_point_selector) →
      execute (fuel + 1) ep s
        = (.error (.entryPointNotFound ep.entry_point_selector), s))
    ∧ ((⟨ep.entry_point_selector, L⟩ : EntryPointEntry)
          ∈ cls.entry_points_by_type ep.entry_point_type →
       (∀ e ∈ cls.entry_points_by_type ep.entry_point_type,
          e.selector = ep.entry_point_selector → e.offset = L) →
       execute (fuel + 1) ep s = run_location (execute fuel) cls L ep s) := by
  constructor
  · intro habs
    have hfind : find_entry_point cls ep.entry_point_type ep.entry_point_selector
        = none := by
      unfold find_entry_point
      have hnone : (cls.entry_points_by_type ep.entry_point_type).find?
          (fun e => e.selector == ep.entry_point_selector) = none :=
        List.find?_eq_none.mpr (fun e he => by
          simpa using habs e he)
      rw [hnone]
      rfl
    show executeStep (execute fuel) ep s = _
    simp only [executeStep, hcls, hfind]
  · intro hmem huniq
    obtain ⟨e, hfind⟩ : ∃ e, (cls.entry_points_by_type ep.entry_point_type).find?
        (fun e => e.selector == ep.entry_point_selector) = some e := by
      have hex : ∃ x ∈ cls.entry_points_by_type ep.entry_point_type,
          ((fun e => e.selector == ep.entry_point_selector) x) = true :=
        ⟨⟨ep.entry_point_selector, L⟩, hmem, by simp⟩
      exact Option.isSome_iff_exists.mp (List.find?_isSome.mpr hex)
    have hsel : e.selector = ep.entry_point_selector := by
      simpa using List.find?_some hfind
    have hoff : e.offset = L :=
      huniq e (List.mem_of_find?_eq_some hfind) hsel
    have hfound : find_entry_point cls ep.entry_point_type ep.entry_point_selector
        = some L := by
      unfold find_entry_point
      rw [hfind]
      simp [hoff]
    show executeStep (execute fuel) ep s = _
    simp only [executeStep, hcls, hfound]

/-- Witness for the resolution theorem on the test class: selector 2 is not
in its External table, so dispatch fails carrying 2; WITHOUT_ARG_SELECTOR is
in the table at location 0, so dispatch runs location 0. -/
theorem entry_point_resolution_witness :
    execute 10 { trivial_external_entrypoint with entry_point_selector := 2 }
        create_test_state
      = (.error (.entryPointNotFound 2), create_test_state)
    ∧ execute 10
        { trivial_external_entrypoint with
            entry_point_selector := WITHOUT_ARG_SELECTOR }
        create_test_state
      = run_location (execute 9) testContractClass 0
          { trivial_external_entrypoint with
              entry_point_selector := WITHOUT_ARG_SELECTOR }
          create_test_state :=
  ⟨(entry_point_resolution 9
      { trivial_external_entrypoint with entry_point_selector := 2 }
      create_test_state testContractClass 0 rfl).1 (by decide),
   (entry_point_resolution 9
      { trivial_external_entrypoint with
          entry_point_selector := WITHOUT_ARG_SELECTOR }
      create_test_state testContractClass 0 rfl).2 (by decide) (by decide)⟩

/-- Two State Readers with the same contents: every lookup agrees, whatever
the internal ordering or representation of the backing dictionaries
(spec §4.2, determinism: no reliance on enumeration order of any unordered
container). -/
def ReaderEquiv (r1 r2 : DictStateReader) : Prop :=
  (∀ p, r1.storage_view.lookup p = r2.storage_view.lookup p)
  ∧ (∀ a, r1.address_to_class_hash.lookup a = r2.address_to_class_hash.lookup a)
  ∧ (∀ h, r1.class_hash_to_class.lookup h = r2.class_hash_to_class.lookup h)

/-- Two Cached States with identical overlay and read cache over
content-equal readers. -/
def StateEquiv (s1 s2 : CachedState) : Prop :=
  s1.storage_writes = s2.storage_writes
  ∧ s1.storage_read_cache = s2.storage_read_cache
  ∧ ReaderEquiv s1.reader s2.reader

/-- Overlay reads agree on content-equal states and preserve their
equivalence. -/
theorem get_storage_at_congr {s1 s2 : CachedState} (h : StateEquiv s1 s2)
    (a k : StarkFelt) :
    (s1.get_storage_at a k).1 = (s2.get_storage_at a k).1
    ∧ StateEquiv (s1.get_storage_at a k).2 (s2.get_storage_at a k).2 := by
  obtain ⟨hw, hc, hr⟩ := h
  simp only [CachedState.get_storage_at, hw, hc]
  cases hl : s2.storage_writes.lookup (a, k) with
  | some v => exact ⟨rfl, hw, hc, hr⟩
  | none =>
    cases hl2 : s2.storage_read_cache.lookup (a, k) with
    | some v => exact ⟨rfl, hw, hc, hr⟩
    | none =>
      have hv : s1.reader.get_storage_at a k = s2.reader.get_storage_at a k := by
        simp only [DictStateReader.get_storage_at, hr.1 (a, k)]
      refine ⟨hv, rfl, ?_, hr⟩
      rw [hv]

/-- Overlay writes preserve state equivalence. -/
theorem set_storage_at_congr {s1 s2 : CachedState} (h : StateEquiv s1 s2)
    (a k v : StarkFelt) :
    StateEquiv (s1.set_storage_at a k v) (s2.set_storage_at a k v) := by
  obtain ⟨hw, hc, hr⟩ := h
  exact ⟨by simp only [CachedState.set_storage_at, hw], hc, hr⟩

/-- Class lookup agrees on content-equal states. -/
theorem get_compiled_class_congr {s1 s2 : CachedState} (h : StateEquiv s1 s2)
    (ch : ClassHash) :
    s1.get_compiled_class ch = s2.get_compiled_class ch := by
  obtain ⟨_, _, hr⟩ := h
  simp only [CachedState.get_compiled_class, hr.2.2 ch]

/-- Deployed-class lookup agrees on content-equal states. -/
theorem get_class_hash_at_congr {s1 s2 : CachedState} (h : StateEquiv s1 s2)
    (a : ContractAddress) :
    s1.get_class_hash_at a = s2.get_class_hash_at a := by
  obtain ⟨_, _, hr⟩ := h
  simp only [CachedState.get_class_hash_at, hr.2.1 a]

/-- The syscall loop is a congruence for state equivalence: on content-equal
states it produces equal results and content-equal final states, provided
the recursive engine it re-enters does. -/
theorem runInstrs_congr
    (exec : CallEntryPoint → CachedState → ExecOutcome)
    (hexec : ∀ (ep : CallEntryPoint) (s1 s2 : CachedState), StateEquiv s1 s2 →
      (exec ep s1).1 = (exec ep s2).1
      ∧ StateEquiv (exec ep s1).2 (exec ep s2).2)
    (addr : ContractAddress) :
    ∀ (instrs : List Instr) (env : List StarkFelt) (acc : List CallInfo)
      (s1 s2 : CachedState), StateEquiv s1 s2 →
      (runInstrs exec addr instrs env acc s1).1
        = (runInstrs exec addr instrs env acc s2).1
      ∧ StateEquiv (runInstrs exec addr instrs env acc s1).2
          (runInstrs exec addr instrs env acc s2).2 := by
  intro instrs
  induction instrs with
  | nil => intro env acc s1 s2 h; exact ⟨rfl, h⟩
  | cons i rest ih =>
    intro env acc s1 s2 h
    cases i with
    | ret vals => exact ⟨rfl, h⟩
    | sread key =>
      simp only [runInstrs]
      obtain ⟨hv, hs⟩ := get_storage_at_congr h addr (key.eval env)
      rw [hv]
      exact ih _ _ _ _ hs
    | swrite key val =>
      simp only [runInstrs]
      exact ih _ _ _ _ (set_storage_at_congr h addr (key.eval env) (val.eval env))
    | callContract address selector args =>
      have hcc := get_class_hash_at_congr h (address.eval env)
      cases hch : s2.get_class_hash_at (address.eval env) with
      | error e =>
        have hch1 : s1.get_class_hash_at (address.eval env) = .error e := by
          rw [hcc, hch]
        simp only [runInstrs, hch1, hch]
        exact ⟨trivial, h⟩
      | ok ch =>
        have hch1 : s1.get_class_hash_at (address.eval env) = .ok ch := by
          rw [hcc, hch]
        obtain ⟨he, hs⟩ := hexec
          { class_hash := ch
            entry_point_type := .external
            entry_point_selector := selector.eval env
            calldata := args.map (Arg.eval env)
            storage_address := address.eval env } s1 s2 h
        cases hx : (exec
            { class_hash := ch
              entry_point_type := .external
              entry_point_selector := selector.eval env
              calldata := args.map (Arg.eval env)
              storage_address := address.eval env } s2).1 with
        | error e =>
          have hx1 := he.trans hx
          simp only [runInstrs, hch1, hch, hx1, hx]
          exact ⟨trivial, hs⟩
        | ok info =>
          have hx1 := he.trans hx
          simp only [runInstrs, hch1, hch, hx1, hx]
          exact ih _ _ _ _ hs
    | libraryCall ch sel args =>
      obtain ⟨he, hs⟩ := hexec
        { class_hash := ch.eval env
          entry_point_type := .external
          entry_point_selector := sel.eval env
          calldata := args.map (Arg.eval env)
          storage_address := addr } s1 s2 h
      cases hx : (exec
          { class_hash := ch.eval env
            entry_point_type := .external
            entry_point_selector := sel.eval env
            calldata := args.map (Arg.eval env)
            storage_address := addr } s2).1 with
      | error e =>
        have hx1 := he.trans hx
        simp only [runInstrs, hx1, hx]
        exact ⟨trivial, hs⟩
      | ok info =>
        have hx1 := he.trans hx
        simp only [runInstrs, hx1, hx]
        exact ih _ _ _ _ hs

/-- The engine is a congruence for state equivalence at every fuel: on
content-equal states it produces equal results and content-equal final
states. -/
theorem execute_congr :
    ∀ (fuel : Nat) (ep : CallEntryPoint) (s1 s2 : CachedState),
      StateEquiv s1 s2 →
      (execute fuel ep s1).1 = (execute fuel ep s2).1
      ∧ StateEquiv (execute fuel ep s1).2 (execute fuel ep s2).2 := by
  intro fuel
  induction fuel with
  | zero => intro ep s1 s2 h; exact ⟨rfl, h⟩
  | succ n ih =>
    intro ep s1 s2 h
    have hcongr := get_compiled_class_congr h ep.class_hash
    show (executeStep (execute n) ep s1).1 = (executeStep (execute n) ep s2).1
      ∧ StateEquiv (executeStep (execute n) ep s1).2 (executeStep (execute n) ep s2).2
    cases hcc : s2.get_compiled_class ep.class_hash with
    | error e =>
      have hcc1 : s1.get_compiled_class ep.class_hash = .error e := by
        rw [hcongr, hcc]
      simp only [executeStep, hcc1, hcc]
      exact ⟨trivial, h⟩
    | ok cls =>
      have hcc1 : s1.get_compiled_class ep.class_hash = .ok cls := by
        rw [hcongr, hcc]
      cases hfind : find_entry_point cls ep.entry_point_type ep.entry_point_selector with
      | none =>
        simp only [executeStep, hcc1, hcc, hfind]
        exact ⟨trivial, h⟩
      | some loc =>
        obtain ⟨h1, h2⟩ := runInstrs_congr (execute n) ih ep.storage_address
          (cls.program loc) ep.calldata [] s1 s2 h
        cases hr : (runInstrs (execute n) ep.storage_address (cls.program loc)
            ep.calldata [] s2).1 with
        | ok out =>
          have hr1 := h1.trans hr
          simp only [executeStep, hcc1, hcc, hfind, run_location, hr1, hr]
          exact ⟨trivial, h2⟩
        | error e =>
          have hr1 := h1.trans hr
          simp only [executeStep, hcc1, hcc, hfind, run_location, hr1, hr]
          exact ⟨trivial, h2⟩

/-- C7: determinism — two executions of the same entry point at the same
fuel over readers with the same contents (whatever their internal ordering
or representation) yield the same Call Info result and the same final
overlay contents.  The model is a pure function of its arguments, so
wall-clock time and randomness cannot enter the result. -/
theorem execute_deterministic (fuel : Nat) (ep : CallEntryPoint)
    (r1 r2 : DictStateReader) (h : ReaderEquiv r1 r2) :
    (execute fuel ep (CachedState.new r1)).1
      = (execute fuel ep (CachedState.new r2)).1
    ∧ ((execute fuel ep (CachedState.new r1)).2).storage_writes
      = ((execute fuel ep (CachedState.new r2)).2).storage_writes := by
  obtain ⟨h1, h2⟩ :=
    execute_congr fuel ep (CachedState.new r1) (CachedState.new r2) ⟨rfl, rfl, h⟩
  exact ⟨h1, h2.1⟩

/-- Reader for the determinism witness, canonical representation. -/
def detReader1 : DictStateReader where
  storage_view := [((256, 7), 5)]
  class_hash_to_class := [(1, writerClass)]

/-- Reader for the determinism witness: same contents as `detReader1` but a
different internal representation (a shadowed duplicate entry). -/
def detReader2 : DictStateReader where
  storage_view := [((256, 7), 5), ((256, 7), 9)]
  class_hash_to_class := [(1, writerClass)]

/-- Witness for the determinism theorem at two readers of equal contents but
different representation. -/
theorem execute_deterministic_witness :
    ReaderEquiv detReader1 detReader2
    ∧ ((execute 10 writerReadEp (CachedState.new detReader1)).1
         = (execute 10 writerReadEp (CachedState.new detReader2)).1
       ∧ ((execute 10 writerReadEp (CachedState.new detReader1)).2).storage_writes
         = ((execute 10 writerReadEp (CachedState.new detReader2)).2).storage_writes) := by
  have hequiv : ReaderEquiv detReader1 detReader2 := by
    refine ⟨?_, ?_, ?_⟩
    · intro p
      cases hp : p == ((256 : ContractAddress), (7 : StarkFelt)) <;>
        simp [detReader1, detReader2, List.lookup, hp]
    · intro a; rfl
    · intro ch; rfl
  exact ⟨hequiv, execute_deterministic 10 writerReadEp detReader1 detReader2 hequiv⟩

/-- Block context consumed by the engine, from
`crates/blockifier/src/block_context.rs` (the `HashMap<String, f64>` and the
machine integers are modelled as an association list with `Float` values and
naturals). -/
structure BlockContext where
  chain_id : String
  block_number : Nat
  block_timestamp : Nat
  sequencer_address : ContractAddress
  fee_token_address : ContractAddress
  vm_resource_fee_cost : List (String × Float)
  gas_price : Nat
  invoke_tx_max_n_steps : Nat
  validate_max_n_steps : Nat

/-- Modelled from the spec: the engine consumes the block context read-only
(the signature hands no context back), and of its fields only the step
ceiling for ordinary invocation enters this core's execution, as the step
budget of the call chain (spec §4.2 step 3, §5, §6); the resource-cost
mapping is forwarded to fee logic outside this core and the remaining fields
are informational. -/
def executeWithContext (ctx : BlockContext) (ep : CallEntryPoint)
    (s : CachedState) : ExecOutcome :=
  execute ctx.invoke_tx_max_n_steps ep s

/-- C10: two runs of execute under block contexts that agree on the two step
ceilings and the resource-cost mapping — hence differ at most in chain id,
block number, block timestamp, sequencer address, fee-token address and gas
price — produce identical outcomes (same Call Info, same final state); the
context is consumed read-only. -/
theorem block_context_only_limits_matter (ctx1 ctx2 : BlockContext)
    (ep : CallEntryPoint) (s : CachedState)
    (h1 : ctx1.invoke_tx_max_n_steps = ctx2.invoke_tx_max_n_steps)
    (_h2 : ctx1.validate_max_n_steps = ctx2.validate_max_n_steps)
    (_h3 : ctx1.vm_resource_fee_cost = ctx2.vm_resource_fee_cost) :
    executeWithContext ctx1 ep s = executeWithContext ctx2 ep s := by
  unfold executeWithContext
  rw [h1]

/-- Block context for the witness, first variant. -/
def ctxA : BlockContext where
  chain_id := "SN_GOERLI"
  block_number := 1
  block_timestamp := 100
  sequencer_address := 7
  fee_token_address := 8
  vm_resource_fee_cost := [("n_steps", 0.01)]
  gas_price := 10
  invoke_tx_max_n_steps := 10
  validate_max_n_steps := 10

/-- Block context for the witness: every informational field differs from
`ctxA`, the ceilings and the cost mapping agree. -/
def ctxB : BlockContext where
  chain_id := "SN_MAIN"
  block_number := 2
  block_timestamp := 200
  sequencer_address := 9
  fee_token_address := 10
  vm_resource_fee_cost := [("n_steps", 0.01)]
  gas_price := 20
  invoke_tx_max_n_steps := 10
  validate_max_n_steps := 10

/-- Witness: contexts differing in every informational field but agreeing on
the ceilings and the cost mapping give identical executions. -/
theorem block_context_only_limits_matter_witness :
    ctxA.invoke_tx_max_n_steps = ctxB.invoke_tx_max_n_steps
    ∧ ctxA.validate_max_n_steps = ctxB.validate_max_n_steps
    ∧ ctxA.vm_resource_fee_cost = ctxB.vm_resource_fee_cost
    ∧ executeWithContext ctxA writerEp writerState
        = executeWithContext ctxB writerEp writerState :=
  ⟨rfl, rfl, rfl,
   block_context_only_limits_matter ctxA ctxB writerEp writerState rfl rfl rfl⟩
